import Mathlib

/-
Verification of the behaviour of `checkpy.py`, a small orchestration script
that walks a directory tree, invokes `pylint` and `pycodestyle` on each
collected `.py` file and aggregates the results.

The script is shallowly embedded below: the warning registry (a Python dict,
insertion ordered with unique keys) becomes an association list, the two
external tools become abstract exit-status functions `String → Int` supplied
by an environment record, and the file system is an abstract record of
`isfile` / `isdir` / `walk` oracles.  Process termination (`sys.exit`) and
the uncaught exception reachable through the `--remove` flag are reified in
an outcome type.
-/

set_option autoImplicit false

namespace Checkpy

/-- Tool name selected for Python 3 (`checkpy.py` lines 29-32). -/
def PYLINT : String := "pylint3"

/-- The warning registry `IGNORE_PEP` (`checkpy.py` lines 56-68): a Python
dict literal from warning code to description, embedded as an insertion
ordered association list.  The source builds two of the description strings
by concatenation, reproduced verbatim. -/
def IGNORE_PEP : List (String × String) := [
  ("E121", "indentation is not a multiple of four"),
  ("E122", "missing indentation or outdented"),
  ("E123", "closing bracket does not match indentation of" ++
           " opening brackets line"),
  ("E125", "continuation line does not distinguish itself" ++
           " from next logical line"),
  ("E126", "over-indented for hanging indent"),
  ("E127", "over-indented for visual indent"),
  ("E128", "continuation line under-indented for visual indent"),
  ("E302", "expected 2 blank lines, found %d"),
  ("E501", "line too long (%d > %d characters)"),
  ("W391", "blank line at end of file")]

/-- Python `str.join`: the elements of the list concatenated with the
separator between consecutive elements. -/
def pyJoin (sep : String) : List String → String
  | [] => ""
  | [s] => s
  | s :: rest => s ++ sep ++ pyJoin sep rest

/-- The keys of a dict, in insertion order (Python `dict.keys()`). -/
def dictKeys (d : List (String × String)) : List String := d.map Prod.fst

/-- The pycodestyle command string built in `check` (`checkpy.py` line 106):
`'pycodestyle --ignore=%s --statistics ' % ','.join(IGNORE_PEP.keys())`,
parameterised by the registry contents at call time. -/
def mypycodestyle (ignorePep : List (String × String)) : String :=
  "pycodestyle --ignore=" ++ pyJoin "," (dictKeys ignorePep) ++ " --statistics "

/-- Python `dict.pop k`: remove the entry with key `k`; `none` models the
`KeyError` raised when `k` is absent (`checkpy.py` line 204). -/
def dictPop (k : String) : List (String × String) → Option (List (String × String))
  | [] => none
  | (k', v) :: rest =>
    if k' = k then some rest
    else match dictPop k rest with
      | some rest' => some ((k', v) :: rest')
      | none => none

/-- Outcome of the `--remove` key loop (`checkpy.py` lines 201-209):
either every key was popped and execution continues with the shrunk
registry, or a `KeyError` was caught, the error message and the remaining
registry were printed and the process terminated. -/
inductive RemoveOutcome where
  | ok (registry : List (String × String)) : RemoveOutcome
  | exitedListing (registry : List (String × String)) : RemoveOutcome
deriving DecidableEq

/-- Registry contents recorded in a `RemoveOutcome`: the shrunk registry on
success, the registry as printed on the `KeyError` path. -/
def RemoveOutcome.registry : RemoveOutcome → List (String × String)
  | .ok reg => reg
  | .exitedListing reg => reg

/-- Process exit on the `--remove` flow: `none` when execution continues.
On the `KeyError` path the handler (`checkpy.py` lines 206-209) calls
`list_pep_keys`, which itself ends in `sys.exit(0)` (line 163), so the
process terminates with status 0 and the `sys.exit(1)` on line 209 is never
reached. -/
def RemoveOutcome.exitStatus : RemoveOutcome → Option Nat
  | .ok _ => none
  | .exitedListing _ => some 0

/-- The pop loop of the `--remove` flow (`checkpy.py` lines 202-209):
keys are popped one at a time; the first absent key stops the loop with the
registry as already shrunk by the preceding pops. -/
def removeKeysLoop (reg : List (String × String)) : List String → RemoveOutcome
  | [] => .ok reg
  | k :: ks =>
    match dictPop k reg with
    | some reg' => removeKeysLoop reg' ks
    | none => .exitedListing reg

/-- Python `str.split(',')` on the character list: splitting on every
comma, adjacent commas yielding empty pieces, the empty string yielding one
empty piece. -/
def splitCommaChars : List Char → List (List Char)
  | [] => [[]]
  | c :: rest =>
    let r := splitCommaChars rest
    if c = ',' then [] :: r
    else match r with
      | [] => [[c]]
      | g :: gs => (c :: g) :: gs

/-- Python whitespace for `str.strip()` without arguments (ASCII range). -/
def isPySpace (c : Char) : Bool :=
  c = ' ' || c = '\t' || c = '\n' || c = '\r' || c = '\x0b' || c = '\x0c'

/-- Python `str.strip()`: whitespace removed from both ends. -/
def pyStrip (cs : List Char) : List Char :=
  ((cs.dropWhile isPySpace).reverse.dropWhile isPySpace).reverse

/-- The key list built on `checkpy.py` line 201:
`[k.strip() for k in keystr.split(',')]`. -/
def keylistOf (keystr : String) : List String :=
  (splitCommaChars keystr.toList).map (fun cs => String.mk (pyStrip cs))

/-- The `--remove` flow applied to a key string (`checkpy.py` lines
200-209): split on commas, strip whitespace, pop each key in turn.  The body
of the `if options.pepkeylist:` block assumes `pepkeylist` is the key
string; `main` as written never supplies one (see `main` below). -/
def removeFlow (reg : List (String × String)) (keystr : String) : RemoveOutcome :=
  removeKeysLoop reg (keylistOf keystr)

/-- Python `myfile.endswith('.py')` (`checkpy.py` lines 115, 120, 125),
modelled as a suffix check on the character list. -/
def endsWithPy (s : String) : Bool :=
  ".py".toList.isSuffixOf s.toList

/-- Failure count for one file in the reporting loop (`checkpy.py` lines
130-151): `rescount` is reset to 0, incremented when the pylint call exits
non-zero and incremented when the pycodestyle call exits non-zero. -/
def checkFile (pylintExit pycodestyleExit : String → Int) (myfile : String) : Nat :=
  let rescount : Nat := 0
  let rescount := if pylintExit myfile = 0 then rescount else rescount + 1
  let rescount := if pycodestyleExit myfile = 0 then rescount else rescount + 1
  rescount

/-- The reporting loop of `check` (`checkpy.py` lines 128-153) over an
already resolved file list: `rescount` starts at 0 before the loop, but the
first statement of each iteration resets it to 0, so the accumulator of the
fold is discarded and the value returned is the failure count of the last
file alone. -/
def check (pylintExit pycodestyleExit : String → Int) (filelist : List String) : Nat :=
  filelist.foldl (fun _rescount myfile => checkFile pylintExit pycodestyleExit myfile) 0

/-- `check_sanity` (`checkpy.py` lines 166-173): `some 1` models printing
the guidance message and `sys.exit(1)` when either executable is missing
from the search path; `none` means both were found and the function
returns. -/
def check_sanity (pylintFound pycodestyleFound : Bool) : Option Nat :=
  if pylintFound = false then some 1
  else if pycodestyleFound = false then some 1
  else none

/-- The file-system and tool environment the script runs against:
whether the two executables resolve on the search path, the `os.path`
predicates, `os.walk` as a list of `(dirpath, filenames)` pairs per root,
the walk of the current working directory, and the exit status of each
tool on each file. -/
structure Env where
  pylintFound : Bool
  pycodestyleFound : Bool
  isFile : String → Bool
  isDir : String → Bool
  walk : String → List (String × List String)
  cwdWalk : List (String × List String)
  pylintExit : String → Int
  pycodestyleExit : String → Int

/-- Inner collection loop over one `os.walk` entry (`checkpy.py` lines
114-116 and 124-126): files whose name ends in `.py` are appended to the
running file list as `dirpath + os.path.sep + name`. -/
def collectPyFiles (dpath : String) (fl : List String) (files : List String) : List String :=
  files.foldl
    (fun fl myfile =>
      if endsWithPy myfile then fl ++ [dpath ++ "/" ++ myfile] else fl)
    fl

/-- The `os.walk` collection loop starting from an existing file list. -/
def walkCollectFrom (init : List String) (entries : List (String × List String)) : List String :=
  entries.foldl (fun filelist entry => collectPyFiles entry.1 filelist entry.2) init

/-- All `.py` files produced by a walk, starting from the empty list
(`checkpy.py` lines 112-116). -/
def walkCollect (entries : List (String × List String)) : List String :=
  walkCollectFrom [] entries

/-- Resolution of explicit candidate paths (`checkpy.py` lines 117-126):
an existing file ending in `.py` is appended directly; a directory is
walked with the same `.py` filter; anything else is skipped without
error. -/
def resolvePaths (env : Env) (paths : List String) : List String :=
  paths.foldl
    (fun filelist thisfile =>
      if env.isFile thisfile && endsWithPy thisfile then filelist ++ [thisfile]
      else if env.isDir thisfile then walkCollectFrom filelist (env.walk thisfile)
      else filelist)
    []

/-- Contribution of a single candidate path to the resolved file list,
by the three branches of `checkpy.py` lines 120-126. -/
def candContribution (env : Env) (p : String) : List String :=
  if env.isFile p && endsWithPy p then [p]
  else if env.isDir p then walkCollect (env.walk p)
  else []

/-- Parsed command-line options (`checkpy.py` lines 179-194).  Both `-l`
and `-r` are declared with `action='store_true'`, so `pepkeylist` is a
boolean flag: any key list typed after `-r` is parsed as a positional
path. -/
structure Options where
  listpep : Bool
  pepkeylist : Bool
  paths : List String

/-- Observable outcome of one run of `main` (`checkpy.py` lines 176-218):
the registry was listed and the process exited 0; the run crashed with an
uncaught `AttributeError`; the sanity check printed guidance and exited 1;
or the check loop ran over a resolved file list and the process exited with
its result. -/
inductive ProgResult where
  | listed (registry : List (String × String)) : ProgResult
  | crashAttributeError : ProgResult
  | missingTool : ProgResult
  | ran (filelist : List String) (rescount : Nat) : ProgResult
deriving DecidableEq

/-- Exit status of a run; `none` when the process died on an uncaught
exception.  `listed` exits 0 through `list_pep_keys` (`checkpy.py` line
163), `missingTool` exits 1 (lines 170 and 173), `ran` exits with the
value returned by `check` (line 218). -/
def ProgResult.exitStatus : ProgResult → Option Int
  | .listed _ => some 0
  | .crashAttributeError => none
  | .missingTool => some 1
  | .ran _ rescount => some (rescount : Int)

/-- The files the reporting loop processed in a run: empty unless the run
reached the check phase. -/
def ProgResult.checkedFiles : ProgResult → List String
  | .ran filelist _ => filelist
  | _ => []

/-- The file list `main` hands to `check` (`checkpy.py` lines 213-216 with
111-126): the walk of the current directory when no paths were given,
otherwise the resolution of the given paths. -/
def resolvedFiles (env : Env) (opts : Options) : List String :=
  if opts.paths.length = 0 then walkCollect env.cwdWalk else resolvePaths env opts.paths

/-- `main` (`checkpy.py` lines 176-218).  `--list` is handled first and
exits 0.  If the `--remove` flag was given, `options.pepkeylist` is the
boolean `True` (argparse `action='store_true'`, line 189), so
`keystr.split(',')` on line 201 raises `AttributeError` and the run
crashes.  Otherwise `check_sanity` may exit 1, and finally the check loop
runs over the resolved file list and its result becomes the exit status. -/
def main (env : Env) (opts : Options) : ProgResult :=
  if opts.listpep then .listed IGNORE_PEP
  else if opts.pepkeylist then .crashAttributeError
  else match check_sanity env.pylintFound env.pycodestyleFound with
    | some _ => .missingTool
    | none =>
      let filelist := resolvedFiles env opts
      .ran filelist (check env.pylintExit env.pycodestyleExit filelist)

/-! Helper lemmas about the embedded operations. -/

/-- Popping a key that is present shrinks the dict by exactly one entry. -/
theorem dictPop_length (k : String) :
    ∀ (reg reg' : List (String × String)), dictPop k reg = some reg' →
      reg'.length + 1 = reg.length := by
  intro reg
  induction reg with
  | nil => intro reg' h; simp [dictPop] at h
  | cons e rest ih =>
    intro reg' h
    rw [show dictPop k (e :: rest)
        = (if e.1 = k then some rest
           else match dictPop k rest with
            | some rest' => some ((e.1, e.2) :: rest')
            | none => none) from rfl] at h
    by_cases he : e.1 = k
    · rw [if_pos he] at h
      cases h
      rfl
    · rw [if_neg he] at h
      cases hrest : dictPop k rest with
      | none => rw [hrest] at h; cases h
      | some rest' =>
        rw [hrest] at h
        cases h
        have := ih rest' hrest
        simp [List.length_cons]
        omega

/-- The reporting loop on a list ending in `lastf` returns the failure count
of `lastf` alone: each iteration throws the accumulator away. -/
theorem check_concat (pylintExit pycodestyleExit : String → Int)
    (fs : List String) (lastf : String) :
    check pylintExit pycodestyleExit (fs ++ [lastf])
      = checkFile pylintExit pycodestyleExit lastf := by
  unfold check
  rw [List.foldl_append]
  rfl

/-- A file contributes zero failures exactly when both tools exited 0. -/
theorem checkFile_eq_zero (pylintExit pycodestyleExit : String → Int) (f : String) :
    checkFile pylintExit pycodestyleExit f = 0 ↔
      pylintExit f = 0 ∧ pycodestyleExit f = 0 := by
  simp only [checkFile]
  split <;> split <;> simp_all

/-- Each file contributes at most one failure per tool. -/
theorem checkFile_le_two (pylintExit pycodestyleExit : String → Int) (f : String) :
    checkFile pylintExit pycodestyleExit f ≤ 2 := by
  simp only [checkFile]
  split <;> split <;> omega

/-- One step of the inner collection loop. -/
theorem collectPyFiles_cons (dpath : String) (init : List String)
    (f : String) (fs : List String) :
    collectPyFiles dpath init (f :: fs)
      = collectPyFiles dpath
          (if endsWithPy f then init ++ [dpath ++ "/" ++ f] else init) fs := rfl

/-- The inner collection loop only ever appends to the list it is given. -/
theorem collectPyFiles_eq_append (dpath : String) (files : List String) :
    ∀ init : List String,
      collectPyFiles dpath init files = init ++ collectPyFiles dpath [] files := by
  induction files with
  | nil => intro init; simp [collectPyFiles]
  | cons f fs ih =>
    intro init
    rw [collectPyFiles_cons, collectPyFiles_cons,
      ih (if endsWithPy f then init ++ [dpath ++ "/" ++ f] else init),
      ih (if endsWithPy f then [] ++ [dpath ++ "/" ++ f] else [])]
    by_cases hf : endsWithPy f <;> simp [hf]

/-- The walk collection loop only ever appends to the list it is given. -/
theorem walkCollectFrom_eq_append (entries : List (String × List String)) :
    ∀ init : List String,
      walkCollectFrom init entries = init ++ walkCollect entries := by
  induction entries with
  | nil => intro init; simp [walkCollectFrom, walkCollect]
  | cons e es ih =>
    intro init
    rw [show walkCollectFrom init (e :: es)
        = walkCollectFrom (collectPyFiles e.1 init e.2) es from rfl]
    rw [show walkCollect (e :: es)
        = walkCollectFrom (collectPyFiles e.1 [] e.2) es from rfl]
    rw [ih, ih, collectPyFiles_eq_append, List.append_assoc]

/-- On a list ending in `a ++ sep ++ b`, the head absorbs one join step. -/
theorem pyJoin_head_append (sep a b : String) (bs : List String) :
    pyJoin sep ((a ++ sep ++ b) :: bs) = a ++ sep ++ pyJoin sep (b :: bs) := by
  cases bs with
  | nil => rfl
  | cons c cs => simp [pyJoin, String.append_assoc]

/-- The accumulator loop of `String.intercalate` agrees with `pyJoin`. -/
theorem intercalate_go_eq (sep : String) : ∀ (as : List String) (a : String),
    String.intercalate.go a sep as = pyJoin sep (a :: as) := by
  intro as
  induction as with
  | nil => intro a; rfl
  | cons b bs ih =>
    intro a
    show String.intercalate.go (a ++ sep ++ b) sep bs = _
    rw [ih, pyJoin_head_append]
    rfl

/-- Python `str.join` modelled by `pyJoin` is `String.intercalate`. -/
theorem pyJoin_eq_intercalate (sep : String) (l : List String) :
    pyJoin sep l = String.intercalate sep l := by
  cases l with
  | nil => rfl
  | cons a as =>
    rw [show String.intercalate sep (a :: as) = String.intercalate.go a sep as from rfl,
      intercalate_go_eq]

/-! Concrete inputs used by counterexamples and witnesses. -/

/-- Exit statuses of a pylint run that fails on `a.py` alone. -/
def plA : String → Int := fun f => if f = "a.py" then 1 else 0

/-- Exit statuses of a pycodestyle run that succeeds on every file. -/
def pcA : String → Int := fun _ => 0

/-- Exit statuses of a pylint run that fails on `b.py` alone. -/
def plB : String → Int := fun f => if f = "b.py" then 1 else 0

/-- A small concrete environment: both tools installed, two existing `.py`
files, one directory `srcdir` holding one `.py` file and one text file. -/
def envA : Env where
  pylintFound := true
  pycodestyleFound := true
  isFile := fun f => f == "a.py" || f == "b.py" || f == "notes.txt"
  isDir := fun d => d == "srcdir"
  walk := fun d => if d == "srcdir" then [("srcdir", ["m.py", "readme.txt"])] else []
  cwdWalk := [(".", ["a.py"])]
  pylintExit := fun _ => 0
  pycodestyleExit := fun _ => 0

/-- `envA` with pylint absent from the search path. -/
def envNoPylint : Env := { envA with pylintFound := false }

/-- Options of a plain `python checkpy.py` run. -/
def optsPlain : Options where
  listpep := false
  pepkeylist := false
  paths := []

/-- Options of a run passing `--list` together with `--remove` and paths. -/
def optsListAll : Options where
  listpep := true
  pepkeylist := true
  paths := ["a.py", "srcdir"]

/-- Options of a run passing only the `--remove` flag and a key as a
positional argument, the way argparse parses `checkpy.py -r E501`. -/
def optsRemove : Options where
  listpep := false
  pepkeylist := true
  paths := ["E501"]

/-! Claims. -/

/-- C1 (corrected): if both tools exit 0 for every file in the resolved
list, `check` returns 0, and a positive return value means at least one
tool failed on at least one file; the converse direction of the claimed
equivalence does not hold (see `check_zero_despite_failure`), because the
per-file counter reset makes only the last file visible in the result. -/
theorem check_zero_of_all_pass (pylintExit pycodestyleExit : String → Int)
    (filelist : List String) :
    ((∀ f ∈ filelist, pylintExit f = 0 ∧ pycodestyleExit f = 0) →
      check pylintExit pycodestyleExit filelist = 0) ∧
    (0 < check pylintExit pycodestyleExit filelist →
      ∃ f ∈ filelist, ¬(pylintExit f = 0 ∧ pycodestyleExit f = 0)) := by
  rcases List.eq_nil_or_concat filelist with hnil | ⟨fs, lastf, rfl⟩
  · subst hnil
    exact ⟨fun _ => rfl, fun h => absurd h (by simp [check])⟩
  · rw [List.concat_eq_append]
    constructor
    · intro h
      rw [check_concat]
      exact (checkFile_eq_zero pylintExit pycodestyleExit lastf).2
        (h lastf (by simp))
    · intro hpos
      rw [check_concat] at hpos
      refine ⟨lastf, by simp, fun hc => ?_⟩
      have := (checkFile_eq_zero pylintExit pycodestyleExit lastf).2 hc
      omega

/-- Witness for C1: on a run where both tools pass the single file, the
aggregate result is 0. -/
theorem check_zero_of_all_pass_witness : check plA pcA ["b.py"] = 0 :=
  (check_zero_of_all_pass plA pcA ["b.py"]).1 (by decide)

/-- Counterexample to C1 as stated: pylint fails on `a.py`, both tools pass
`b.py`, yet the aggregate result over `[a.py, b.py]` is 0, so a result of 0
does not imply that every file passed both tools. -/
theorem check_zero_despite_failure :
    check plA pcA ["a.py", "b.py"] = 0 ∧
    ¬(∀ f ∈ (["a.py", "b.py"] : List String), plA f = 0 ∧ pcA f = 0) := by
  decide

/-- C2 (corrected): when every invocation on the earlier files succeeds and
exactly one of the two tools fails on the last file of the list, the
aggregate result is 1; the claim as stated, without requiring the failing
file to be last, fails (see `check_single_failure_not_last`). -/
theorem check_single_failure_last_file (pylintExit pycodestyleExit : String → Int)
    (fs : List String) (lastf : String)
    (_hmany : 1 ≤ fs.length)
    (_hothers : ∀ f ∈ fs, pylintExit f = 0 ∧ pycodestyleExit f = 0)
    (hone : (pylintExit lastf ≠ 0 ∧ pycodestyleExit lastf = 0) ∨
            (pylintExit lastf = 0 ∧ pycodestyleExit lastf ≠ 0)) :
    check pylintExit pycodestyleExit (fs ++ [lastf]) = 1 := by
  rw [check_concat]
  simp only [checkFile]
  rcases hone with ⟨h1, h2⟩ | ⟨h1, h2⟩ <;> simp [h1, h2]

/-- Witness for C2: two files, pylint fails only on the last one, the
aggregate result is 1. -/
theorem check_single_failure_last_file_witness :
    check plB pcA (["a.py"] ++ ["b.py"]) = 1 :=
  check_single_failure_last_file plB pcA ["a.py"] "b.py"
    (by decide) (by decide) (by decide)

/-- Counterexample to C2 as stated: two files, exactly one invocation
(pylint on `a.py`, the first file) exits non-zero, every other invocation
exits 0, yet the aggregate result is 0, not 1. -/
theorem check_single_failure_not_last :
    1 < (["a.py", "b.py"] : List String).length ∧
    plA "a.py" ≠ 0 ∧ pcA "a.py" = 0 ∧ plA "b.py" = 0 ∧ pcA "b.py" = 0 ∧
    check plA pcA ["a.py", "b.py"] ≠ 1 := by
  decide

/-- C3 (code bug): on the remove flow with key string `E501,Z999`, where
`Z999` is absent, the process terminates with exit status 0, not 1 (the
`KeyError` handler calls `list_pep_keys`, which exits 0 before the
`sys.exit(1)` is reached), and the registry at that point has already lost
`E501`, so it is not the original registry that gets printed. -/
theorem remove_unknown_key_behavior :
    (removeFlow IGNORE_PEP "E501,Z999").exitStatus = some 0 ∧
    (removeFlow IGNORE_PEP "E501,Z999").registry ≠ IGNORE_PEP ∧
    (removeFlow IGNORE_PEP "E501,Z999").registry.length = 9 := by
  decide

/-- C4 (code bug): the `--remove` option is declared with
`action='store_true'`, so `options.pepkeylist` is the boolean `True` and
`keystr.split(',')` raises an uncaught `AttributeError`: the run with the
remove flag crashes and has no defined exit status. -/
theorem remove_option_crashes :
    main envA optsRemove = .crashAttributeError ∧
    (main envA optsRemove).exitStatus = none :=
  ⟨rfl, rfl⟩

/-- C5 (corrected): the registry initially holds 10 entries, not 11;
the remove flow on `E501,W391` succeeds and leaves 8 entries, not 9; and
popping any present key shrinks any registry by exactly one entry. -/
theorem registry_sizes :
    IGNORE_PEP.length = 10 ∧
    (∃ reg', removeFlow IGNORE_PEP "E501,W391" = .ok reg' ∧ reg'.length = 8) ∧
    (∀ (k : String) (reg reg' : List (String × String)),
      dictPop k reg = some reg' → reg'.length + 1 = reg.length) :=
  ⟨by decide,
   ⟨(removeFlow IGNORE_PEP "E501,W391").registry, by decide, by decide⟩,
   fun k reg reg' h => dictPop_length k reg reg' h⟩

/-- Witness for C5: popping the key of a one-entry registry leaves zero
entries, one fewer. -/
theorem registry_sizes_witness :
    ([] : List (String × String)).length + 1
      = [("E501", "line too long")].length :=
  registry_sizes.2.2 "E501" [("E501", "line too long")] [] (by decide)

/-- Counterexample to C5 as stated: the registry does not have 11 entries,
and removing `E501,W391` does not leave 9. -/
theorem registry_size_not_eleven :
    IGNORE_PEP.length ≠ 11 ∧
    (removeFlow IGNORE_PEP "E501,W391").registry.length ≠ 9 := by
  decide

/-- C6 (confirmed): whenever the list flag is set, whatever the other
options and paths, `main` only lists the registry as initially populated,
exits 0, and checks no files. -/
theorem list_option_priority (env : Env) (opts : Options)
    (h : opts.listpep = true) :
    main env opts = .listed IGNORE_PEP ∧
    (main env opts).exitStatus = some 0 ∧
    (main env opts).checkedFiles = [] := by
  have hm : main env opts = .listed IGNORE_PEP := by
    unfold main
    rw [h]
    rfl
  exact ⟨hm, by rw [hm]; rfl, by rw [hm]; rfl⟩

/-- Witness for C6: a run passing `--list` together with the remove flag
and two paths still only lists and exits 0. -/
theorem list_option_priority_witness :
    main envA optsListAll = .listed IGNORE_PEP ∧
    (main envA optsListAll).exitStatus = some 0 ∧
    (main envA optsListAll).checkedFiles = [] :=
  list_option_priority envA optsListAll rfl

/-- C7 (confirmed): on a run that reaches the sanity check (no list flag,
no remove flag), a missing executable makes `check_sanity` exit 1 and
`main` terminate with exit status 1 before checking any file, while with
both executables present the sanity check changes nothing and `main`
proceeds to run the check loop on the resolved file list. -/
theorem sanity_check_gate (env : Env) (opts : Options)
    (h1 : opts.listpep = false) (h2 : opts.pepkeylist = false) :
    ((env.pylintFound = false ∨ env.pycodestyleFound = false) →
      check_sanity env.pylintFound env.pycodestyleFound = some 1 ∧
      main env opts = .missingTool ∧
      (main env opts).exitStatus = some 1 ∧
      (main env opts).checkedFiles = []) ∧
    (env.pylintFound = true → env.pycodestyleFound = true →
      check_sanity env.pylintFound env.pycodestyleFound = none ∧
      main env opts = .ran (resolvedFiles env opts)
        (check env.pylintExit env.pycodestyleExit (resolvedFiles env opts))) := by
  have hsane : ∀ a b : Bool, (a = false ∨ b = false) → check_sanity a b = some 1 := by
    decide
  constructor
  · intro hp
    have hs1 : check_sanity env.pylintFound env.pycodestyleFound = some 1 :=
      hsane _ _ hp
    have hm : main env opts = .missingTool := by
      unfold main
      rw [h1, h2, hs1]
      rfl
    exact ⟨hs1, hm, by rw [hm]; rfl, by rw [hm]; rfl⟩
  · intro hp hq
    have hs0 : check_sanity env.pylintFound env.pycodestyleFound = none := by
      simp [check_sanity, hp, hq]
    have hm : main env opts = .ran (resolvedFiles env opts)
        (check env.pylintExit env.pycodestyleExit (resolvedFiles env opts)) := by
      unfold main
      rw [h1, h2, hs0]
      rfl
    exact ⟨hs0, hm⟩

/-- Witness for C7: with pylint absent from the search path, a plain run
terminates with status 1 without checking a file. -/
theorem sanity_check_gate_witness :
    main envNoPylint optsPlain = .missingTool ∧
    (main envNoPylint optsPlain).exitStatus = some 1 ∧
    (main envNoPylint optsPlain).checkedFiles = [] :=
  ⟨((sanity_check_gate envNoPylint optsPlain rfl rfl).1 (Or.inl rfl)).2.1,
   ((sanity_check_gate envNoPylint optsPlain rfl rfl).1 (Or.inl rfl)).2.2.1,
   ((sanity_check_gate envNoPylint optsPlain rfl rfl).1 (Or.inl rfl)).2.2.2⟩

/-- C8 (confirmed): each candidate path contributes to the resolved file
list exactly its case-determined contribution, appended in order: the path
itself when it is an existing `.py` file, the `.py` files beneath it when
it is a directory, nothing otherwise; and a candidate whose contribution is
empty leaves the resolved list unchanged. -/
theorem path_resolution_cases :
    (∀ (env : Env) (ps : List String) (p : String),
      resolvePaths env (ps ++ [p]) = resolvePaths env ps ++ candContribution env p) ∧
    (∀ (env : Env) (ps : List String) (p : String),
      candContribution env p = [] →
        resolvePaths env (ps ++ [p]) = resolvePaths env ps) := by
  have hstep : ∀ (env : Env) (ps : List String) (p : String),
      resolvePaths env (ps ++ [p]) = resolvePaths env ps ++ candContribution env p := by
    intro env ps p
    have h1 : resolvePaths env (ps ++ [p])
        = (if env.isFile p && endsWithPy p then resolvePaths env ps ++ [p]
           else if env.isDir p then walkCollectFrom (resolvePaths env ps) (env.walk p)
           else resolvePaths env ps) := by
      unfold resolvePaths
      rw [List.foldl_append]
      rfl
    rw [h1]
    unfold candContribution
    by_cases hf : env.isFile p && endsWithPy p
    · simp [hf]
    · by_cases hd : env.isDir p
      · simp [hf, hd, walkCollectFrom_eq_append]
      · simp [hf, hd]
  exact ⟨hstep, fun env ps p hnone => by rw [hstep env ps p, hnone, List.append_nil]⟩

/-- Witness for C8: in the concrete environment, the existing non-`.py`
file `notes.txt` contributes nothing and leaves the resolved list as it
was. -/
theorem path_resolution_cases_witness :
    candContribution envA "notes.txt" = [] ∧
    resolvePaths envA (["a.py"] ++ ["notes.txt"]) = resolvePaths envA ["a.py"] :=
  ⟨by decide, path_resolution_cases.2 envA ["a.py"] "notes.txt" (by decide)⟩

/-- C9 (confirmed): the pycodestyle command built by `check` carries an
`--ignore=` argument whose value is the keys of the registry it is given,
joined by commas, followed by the `--statistics` flag. -/
theorem pycodestyle_command_shape (reg : List (String × String)) :
    mypycodestyle reg
      = "pycodestyle --ignore="
          ++ String.intercalate "," (dictKeys reg) ++ " --statistics " := by
  unfold mypycodestyle
  rw [pyJoin_eq_intercalate]

/-- C10 (confirmed): `check` on the empty file list returns 0, on any
non-empty list it returns exactly the failure count of the last file,
and that count is at most 2 (one per tool). -/
theorem check_returns_last_file_count (pylintExit pycodestyleExit : String → Int) :
    check pylintExit pycodestyleExit [] = 0 ∧
    (∀ (fs : List String) (lastf : String),
      check pylintExit pycodestyleExit (fs ++ [lastf])
        = checkFile pylintExit pycodestyleExit lastf) ∧
    (∀ f : String, checkFile pylintExit pycodestyleExit f ≤ 2) :=
  ⟨rfl,
   fun fs lastf => check_concat pylintExit pycodestyleExit fs lastf,
   fun f => checkFile_le_two pylintExit pycodestyleExit f⟩

end Checkpy
